import Mathlib

/-!
Shallow embedding of the session runner (`packages/eval/data/bfcl_eval/runner.py`)
and the backend registry (`packages/eval/data/bfcl_eval/constants/executable_backend_config.py`),
together with proofs about the request/response protocol.

Modelling conventions:
* JSON values produced by Python's `json.loads` are the inductive `JValue`;
  numbers are modelled as `Int` (no test here depends on float semantics).
* Python dicts are association lists with unique keys in insertion order;
  `dict.get`, `dict` assignment and key-prefix scans are modelled explicitly.
* The two external collaborators (`execute_multi_turn_func_call` and
  `multi_turn_checker`) are not part of the source tree; following the spec
  they are abstract parameters: the engine may fail and may transform the
  process-wide globals, the checker is a pure function of its five arguments.
* Uncaught Python exceptions (ones escaping the `try`/`except` in `main`)
  are modelled as a `crash` outcome that terminates the request loop.
-/

namespace BfclRunner

/-- JSON values as returned by Python's `json.loads`: `None`, booleans,
numbers, strings, arrays and objects (objects keep insertion order). -/
inductive JValue where
  | null : JValue
  | bool (b : Bool) : JValue
  | num (n : Int) : JValue
  | str (s : String) : JValue
  | arr (elems : List JValue) : JValue
  | obj (fields : List (String × JValue)) : JValue

/-- A single-quote character, used by Python `repr` of strings and by
Python error messages such as the unhashable-key `TypeError` text. -/
def sq : String := String.singleton (Char.ofNat 39)

mutual

/-- Python `str()` of a JSON value, as used by f-string interpolation:
`str(None) = "None"`, `str(True) = "True"`, numbers and strings verbatim,
containers rendered with `repr` of their elements. -/
def pyStr : JValue → String
  | .null => "None"
  | .bool true => "True"
  | .bool false => "False"
  | .num n => toString n
  | .str s => s
  | .arr xs => "[" ++ String.intercalate ", " (pyReprList xs) ++ "]"
  | .obj fs => "\x7b" ++ String.intercalate ", " (pyReprFields fs) ++ "\x7d"

/-- Python `repr()` of a JSON value: like `pyStr` but strings are quoted. -/
def pyRepr : JValue → String
  | .null => "None"
  | .bool true => "True"
  | .bool false => "False"
  | .num n => toString n
  | .str s => sq ++ s ++ sq
  | .arr xs => "[" ++ String.intercalate ", " (pyReprList xs) ++ "]"
  | .obj fs => "\x7b" ++ String.intercalate ", " (pyReprFields fs) ++ "\x7d"

/-- `repr` of each element of a Python list. -/
def pyReprList : List JValue → List String
  | [] => []
  | v :: vs => pyRepr v :: pyReprList vs

/-- `repr` of each `key: value` pair of a Python dict. -/
def pyReprFields : List (String × JValue) → List String
  | [] => []
  | (k, v) :: fs => (sq ++ k ++ sq ++ ": " ++ pyRepr v) :: pyReprFields fs

end

/-- Python truthiness of a JSON value: `None`, `False`, `0`, `""`, `[]`
and `\x7b\x7d` are falsy, everything else truthy. -/
def pyTruthy : JValue → Bool
  | .null => false
  | .bool b => b
  | .num n => !(n == 0)
  | .str s => !s.isEmpty
  | .arr xs => !xs.isEmpty
  | .obj fs => !fs.isEmpty

/-- A Python dict holding JSON values: association list in insertion order
with unique keys (uniqueness is guaranteed by `json.loads`). -/
abbrev PyDict : Type := List (String × JValue)

/-- First-match lookup in an association list (Python dict indexing). -/
def lookupField : List (String × JValue) → String → Option JValue
  | [], _ => none
  | (k, v) :: rest, key => if k = key then some v else lookupField rest key

/-- Python `d.get(key, default)`. -/
def pyDictGetD (d : PyDict) (key : String) (dflt : JValue) : JValue :=
  (lookupField d key).getD dflt

/-- Python `d[key] = v`: overwrite in place when the key exists, append
otherwise (insertion order is preserved). -/
def dictSet (d : PyDict) (k : String) (v : JValue) : PyDict :=
  if (d.map Prod.fst).contains k then
    d.map (fun kv => if kv.1 = k then (k, v) else kv)
  else d ++ [(k, v)]

/-- Prefix test on character lists. -/
def charsPref : List Char → List Char → Bool
  | [], _ => true
  | _ :: _, [] => false
  | c :: cs, d :: ds => c == d && charsPref cs ds

/-- Python `s.startswith(pre)`. -/
def pyStartswith (s pre : String) : Bool := charsPref pre.data s.data

/-- Whitespace characters removed by Python `str.strip()` (restricted to
the ASCII whitespace that can occur on a protocol line). -/
def pyIsSpace (c : Char) : Bool :=
  c == ' ' || c == '\t' || c == '\n' || c == '\r' || c == '\x0b' || c == '\x0c'

/-- Python `line.strip()`: drop leading and trailing whitespace. -/
def pyStrip (s : String) : String :=
  String.mk (((s.data.dropWhile pyIsSpace).reverse.dropWhile pyIsSpace).reverse)

/-- Python attribute access `v.get(key)` on a parsed JSON value: succeeds
with the dict-get result when `v` is a dict, raises `AttributeError`
(modelled as `Except.error`) on every other `json.loads` result type. -/
def pyGetAttrGet (v : JValue) (key : String) : Except Unit JValue :=
  match v with
  | .obj fields => .ok ((lookupField fields key).getD .null)
  | _ => .error ()

/-! ## Backend registry (`constants/executable_backend_config.py`) -/

/-- `MULTI_TURN_FUNC_DOC_FILE_MAPPING`: API name to documentation file. -/
def MULTI_TURN_FUNC_DOC_FILE_MAPPING : List (String × String) :=
  [ ("GorillaFileSystem", "gorilla_file_system.json"),
    ("MathAPI", "math_api.json"),
    ("MessageAPI", "message_api.json"),
    ("TwitterAPI", "posting_api.json"),
    ("TicketAPI", "ticket_api.json"),
    ("TradingBot", "trading_bot.json"),
    ("TravelAPI", "travel_booking.json"),
    ("VehicleControlAPI", "vehicle_control.json") ]

/-- `BACKEND_PATH_PREFIX`: common module-path prefix of the backends. -/
def BACKEND_PATH_PREFIX : String :=
  "bfcl_eval.eval_checker.multi_turn_eval.func_source_code"

/-- `CLASS_FILE_PATH_MAPPING`: API name to implementing module path. -/
def CLASS_FILE_PATH_MAPPING : List (String × String) :=
  [ ("GorillaFileSystem", BACKEND_PATH_PREFIX ++ ".gorilla_file_system"),
    ("MathAPI", BACKEND_PATH_PREFIX ++ ".math_api"),
    ("MessageAPI", BACKEND_PATH_PREFIX ++ ".message_api"),
    ("TwitterAPI", BACKEND_PATH_PREFIX ++ ".posting_api"),
    ("TicketAPI", BACKEND_PATH_PREFIX ++ ".ticket_api"),
    ("TradingBot", BACKEND_PATH_PREFIX ++ ".trading_bot"),
    ("TravelAPI", BACKEND_PATH_PREFIX ++ ".travel_booking"),
    ("VehicleControlAPI", BACKEND_PATH_PREFIX ++ ".vehicle_control") ]

/-- `STATELESS_CLASSES`: classes needing no initial configuration. -/
def STATELESS_CLASSES : List String := ["MathAPI"]

/-- `OMIT_STATE_INFO_CLASSES`: classes whose state is logged out-of-band
(empty in this port). -/
def OMIT_STATE_INFO_CLASSES : List String := []

/-! ## Session runner (`runner.py`) -/

/-- Process-wide globals of the runner module (Python `globals()`): an
insertion-ordered mapping from binding name to a value (module bindings
and cached backend instances alike); the runner only ever inspects the
keys, so the value type is a parameter. -/
abbrev Globals (α : Type) : Type := List (String × α)

/-- Modelled from the spec: the execution-engine collaborator
`execute_multi_turn_func_call` is external to the source tree. It
receives the keyword arguments built at the call site, may read and
transform the process-wide globals (the Cached Backend Instance Set),
and either raises (`Except.error` with the exception message) or returns
the pair `(results, instances)`. -/
abbrev Engine (α : Type) : Type :=
  List (String × JValue) → Globals α → Except String (JValue × JValue) × Globals α

/-- Modelled from the spec: the checker collaborator `multi_turn_checker`
is external to the source tree; it is a pure function of
`(model_results, ground_truth, test_entry, test_category, model_name)`
that either raises or returns a verdict. -/
abbrev Checker : Type :=
  JValue → JValue → JValue → JValue → JValue → Except String JValue

/-- Keyword arguments that `_handle_execute` passes to
`execute_multi_turn_func_call`, in source order; note the call site
spells the last keyword `is_evaL_run` (capital L). -/
def executeKwargs (payload : PyDict) : List (String × JValue) :=
  [ ("func_call_list", pyDictGetD payload "func_call_list" (.arr [])),
    ("initial_config", pyDictGetD payload "initial_config" (.obj [])),
    ("involved_classes", pyDictGetD payload "involved_classes" (.arr [])),
    ("model_name", pyDictGetD payload "model_name" (.str "model")),
    ("test_entry_id", pyDictGetD payload "test_entry_id" (.str "")),
    ("long_context", .bool (pyTruthy (pyDictGetD payload "long_context" (.bool false)))),
    ("is_evaL_run", .bool (pyTruthy (pyDictGetD payload "is_eval_run" (.bool false)))) ]

/-- `_handle_execute`: forward the payload fields (with defaults) to the
engine, discard the returned instances, wrap the results. -/
def _handle_execute {α : Type} (eng : Engine α) (payload : PyDict) (g : Globals α) :
    Except String PyDict × Globals α :=
  match eng (executeKwargs payload) g with
  | (.error e, g2) => (.error e, g2)
  | (.ok (results, _instances), g2) => (.ok [("results", results)], g2)

/-- Positional arguments that `_handle_check` passes to `multi_turn_checker`. -/
def checkArgs (payload : PyDict) : JValue × JValue × JValue × JValue × JValue :=
  ( pyDictGetD payload "model_results" (.arr []),
    pyDictGetD payload "ground_truth" (.arr []),
    pyDictGetD payload "test_entry" (.obj []),
    pyDictGetD payload "test_category" (.str ""),
    pyDictGetD payload "model_name" (.str "model") )

/-- `_handle_check`: delegate to the checker, wrap its verdict. -/
def _handle_check {α : Type} (chk : Checker) (payload : PyDict) (g : Globals α) :
    Except String PyDict × Globals α :=
  match chk (pyDictGetD payload "model_results" (.arr []))
      (pyDictGetD payload "ground_truth" (.arr []))
      (pyDictGetD payload "test_entry" (.obj []))
      (pyDictGetD payload "test_category" (.str ""))
      (pyDictGetD payload "model_name" (.str "model")) with
  | .error msg => (.error msg, g)
  | .ok r => (.ok [("result", r)], g)

/-- Key prefix `f"\x7bmodel_name\x7d_\x7btest_entry_id\x7d_"` that
`_handle_reset` scans the globals for. -/
def keyPref (modelName testEntryId : JValue) : String :=
  pyStr modelName ++ "_" ++ pyStr testEntryId ++ "_"

/-- `_handle_reset`: when both `model_name` and `test_entry_id` are
truthy, delete every global whose key starts with the derived prefix;
always report success. -/
def _handle_reset {α : Type} (payload : PyDict) (g : Globals α) :
    Except String PyDict × Globals α :=
  let modelName := pyDictGetD payload "model_name" .null
  let testEntryId := pyDictGetD payload "test_entry_id" .null
  let g2 :=
    if pyTruthy modelName && pyTruthy testEntryId then
      g.filter (fun kv => !(pyStartswith kv.1 (keyPref modelName testEntryId)))
    else g
  (.ok [("reset", .bool true)], g2)

/-- Names of the three handlers registered in `HANDLERS`. -/
inductive HandlerTag where
  | execute : HandlerTag
  | check : HandlerTag
  | reset : HandlerTag

/-- `HANDLERS.get(action)`: Python dict lookup keyed by the `action`
value; an unhashable key (list or dict) raises `TypeError`, any other
value simply misses the three string keys. -/
def handlersGet : JValue → Except String (Option HandlerTag)
  | .arr _ => .error ("unhashable type: " ++ sq ++ "list" ++ sq)
  | .obj _ => .error ("unhashable type: " ++ sq ++ "dict" ++ sq)
  | .str "execute" => .ok (some .execute)
  | .str "check" => .ok (some .check)
  | .str "reset" => .ok (some .reset)
  | _ => .ok none

/-- Run the handler selected by `HANDLERS.get`. -/
def runHandler {α : Type} (tag : HandlerTag) (eng : Engine α) (chk : Checker)
    (payload : PyDict) (g : Globals α) : Except String PyDict × Globals α :=
  match tag with
  | .execute => _handle_execute eng payload g
  | .check => _handle_check chk payload g
  | .reset => _handle_reset payload g

/-- One input line of `sys.stdin` together with the outcome of
`json.loads` on it (the JSON grammar itself is Python's standard
library, treated as an oracle attached to the line: `Except.error`
carries the `JSONDecodeError` message). -/
structure InputLine where
  text : String
  parsed : Except String JValue

/-- State of `main`'s loop between two iterations: the module globals
and the function-local `payload`, which persists across iterations once
assigned (it is only rebound after a successful `json.loads`). -/
structure LoopState (α : Type) where
  globals : Globals α
  lastPayload : Option JValue

/-- Outcome of one iteration of `main`'s loop on one line. -/
inductive StepResult (α : Type) where
  | crash (st : LoopState α) : StepResult α
  | skip (st : LoopState α) : StepResult α
  | emit (resp : PyDict) (st : LoopState α) : StepResult α

/-- The `except` branch of `main` for a line `json.loads` rejected:
`\x7b"id": payload.get("id") if 'payload' in locals() else None, "error": str(e)\x7d`.
When a previous iteration bound `payload`, its (stale) `id` is echoed;
`payload.get` on a non-dict raises again, uncaught (`none`). -/
def respMalformed (lastPayload : Option JValue) (msg : String) : Option PyDict :=
  match lastPayload with
  | none => some [("id", .null), ("error", .str msg)]
  | some p =>
    match pyGetAttrGet p "id" with
    | .error _ => none
    | .ok v => some [("id", v), ("error", .str msg)]

/-- Dispatch of a line that parsed to a dict: extract `action`, look up
the handler, run it, and attach the echoed `id`; every exception raised
here is caught by the `except` branch, which succeeds because the
current `payload` is a dict. Returns the response and the new globals. -/
def dispatchObj {α : Type} (eng : Engine α) (chk : Checker)
    (fields : PyDict) (g : Globals α) : PyDict × Globals α :=
  let action := (lookupField fields "action").getD .null
  let idv := (lookupField fields "id").getD .null
  match handlersGet action with
  | .error msg => ([("id", idv), ("error", .str msg)], g)
  | .ok none =>
    (dictSet [("error", .str ("unknown action: " ++ pyStr action))] "id" idv, g)
  | .ok (some tag) =>
    match runHandler tag eng chk fields g with
    | (.error msg, g2) => ([("id", idv), ("error", .str msg)], g2)
    | (.ok resp, g2) => (dictSet resp "id" idv, g2)

/-- One iteration of `main`'s loop on one line: skip blank lines; on a
parse failure run the `except` branch (which may itself raise,
terminating the loop); on a dict payload dispatch normally; on a
non-dict payload both `payload.get("action")` and the `except` branch's
`payload.get("id")` raise, so the loop crashes. -/
def stepLine {α : Type} (eng : Engine α) (chk : Checker)
    (st : LoopState α) (l : InputLine) : StepResult α :=
  if pyStrip l.text = "" then .skip st
  else
    match l.parsed with
    | .error msg =>
      match respMalformed st.lastPayload msg with
      | none => .crash st
      | some r => .emit r st
    | .ok (.obj fields) =>
      match dispatchObj eng chk fields st.globals with
      | (r, g2) => .emit r ⟨g2, some (.obj fields)⟩
    | .ok v => .crash ⟨st.globals, some v⟩

/-- `main`: fold the loop over the input lines, collecting the emitted
response lines in order; the boolean records whether an uncaught
exception terminated the loop early (remaining lines unread). -/
def runLoop {α : Type} (eng : Engine α) (chk : Checker) :
    List InputLine → LoopState α → List PyDict × Bool
  | [], _ => ([], false)
  | l :: ls, st =>
    match stepLine eng chk st l with
    | .crash _ => ([], true)
    | .skip st2 => runLoop eng chk ls st2
    | .emit r st2 =>
      match runLoop eng chk ls st2 with
      | (rest, c) => (r :: rest, c)

/-- Whether a line survives the two blank-line checks of `main`
(`if not line: continue` and `if not line.strip(): continue`). -/
def nonBlank (l : InputLine) : Bool := !(pyStrip l.text == "")

/-- One response per non-blank line, threading the loop state: the
normal-operation shape of the loop (total by construction; the `crash`
and `skip` branches are unreachable for the line classes it is applied
to and return a dummy response). -/
def oneResp {α : Type} (eng : Engine α) (chk : Checker)
    (st : LoopState α) (l : InputLine) : PyDict × LoopState α :=
  match stepLine eng chk st l with
  | .emit r st2 => (r, st2)
  | .skip st2 => ([], st2)
  | .crash st2 => ([], st2)

/-- State-threading map producing exactly one output per input. -/
def seqMap {σ β γ : Type} (f : σ → β → γ × σ) : σ → List β → List γ
  | _, [] => []
  | s, b :: bs =>
    match f s b with
    | (c, s2) => c :: seqMap f s2 bs

/-- Whether a `json.loads` result is a Python dict. -/
def isDict : JValue → Bool
  | .obj _ => true
  | _ => false

/-! ## Concrete instantiations used in closed statements -/

/-- An engine instance that succeeds with empty results and leaves the
globals unchanged. -/
def demoEngine : Engine Nat := fun _ g => (.ok (.arr [], .arr []), g)

/-- A checker instance that always returns the empty-dict verdict. -/
def demoChecker : Checker := fun _ _ _ _ _ => .ok (.obj [])

/-- A small stand-in for the runner module's initial globals. -/
def demoGlobals : Globals Nat := [("json", 0), ("sys", 1), ("HANDLERS", 2)]

/-- A stream whose first line is the JSON number `5` (well-formed JSON,
not an object) followed by a well-formed reset request. -/
def nonObjectStream : List InputLine :=
  [ ⟨"5", .ok (.num 5)⟩,
    ⟨"\x7b\"action\": \"reset\"\x7d", .ok (.obj [("action", .str "reset")])⟩ ]

/-- A stream whose first request is well-formed and carries id 7, and
whose second line is not valid JSON. -/
def staleIdStream : List InputLine :=
  [ ⟨"\x7b\"id\": 7, \"action\": \"reset\"\x7d",
      .ok (.obj [("id", .num 7), ("action", .str "reset")])⟩,
    ⟨"\x7bnot json", .error "Expecting value: line 1 column 1 (char 0)"⟩ ]

/-- A stream with one whitespace-only line and two non-blank lines, the
first of which parses to a JSON array. -/
def arrayLineStream : List InputLine :=
  [ ⟨" ", .error "Expecting value: line 1 column 1 (char 0)"⟩,
    ⟨"[]", .ok (.arr [])⟩,
    ⟨"\x7b\"action\": \"reset\"\x7d", .ok (.obj [("action", .str "reset")])⟩ ]

end BfclRunner

namespace BfclRunner

/-! ## Claim theorems -/

/-- C9: the backend registry is consistent and complete as static data:
the API names carrying a documentation file are exactly the API names
carrying an implementing module path, each name occurs once per mapping,
and every name classified as stateless or log-omitted is one of those
registered names. -/
theorem c9_registry_consistent_complete :
    MULTI_TURN_FUNC_DOC_FILE_MAPPING.map Prod.fst = CLASS_FILE_PATH_MAPPING.map Prod.fst ∧
    (MULTI_TURN_FUNC_DOC_FILE_MAPPING.map Prod.fst).Nodup ∧
    (CLASS_FILE_PATH_MAPPING.map Prod.fst).Nodup ∧
    STATELESS_CLASSES.all
      (fun c => (MULTI_TURN_FUNC_DOC_FILE_MAPPING.map Prod.fst).contains c) = true ∧
    OMIT_STATE_INFO_CLASSES.all
      (fun c => (MULTI_TURN_FUNC_DOC_FILE_MAPPING.map Prod.fst).contains c) = true :=
  ⟨rfl, by decide, by decide, rfl, rfl⟩

/-- C1: evaluation of the request loop at the failing input. The line
`5` parses as JSON but not as an object, so `payload.get("action")`
raises `AttributeError`; the `except` branch then evaluates
`payload.get("id")`, which raises again, uncaught. The loop terminates
with no response for that line, and the following well-formed reset
request is never read — contradicting the claim that every failure
while handling a parsed line is converted into an error response and
the loop continues. -/
theorem c1_nonobject_line_crashes_loop :
    runLoop demoEngine demoChecker nonObjectStream ⟨demoGlobals, none⟩ = ([], true) := by rfl

/-- C2: evaluation of the request loop at the failing input. After the
first request (id 7) is answered, the second line fails to parse; in the
`except` branch `'payload' in locals()` is true because `payload` still
holds the previous iteration's request, so the error response echoes the
stale id 7 instead of null. -/
theorem c2_parse_failure_echoes_stale_id :
    runLoop demoEngine demoChecker staleIdStream ⟨demoGlobals, none⟩
      = ([ [("reset", .bool true), ("id", .num 7)],
           [("id", .num 7), ("error", .str "Expecting value: line 1 column 1 (char 0)")] ],
         false) ∧
    JValue.num 7 ≠ JValue.null :=
  ⟨by rfl, fun h => JValue.noConfusion h⟩

/-- C5 counterexample: a stream with two non-blank lines on which the
runner emits zero responses: the line `[]` parses to a JSON array, the
loop crashes on it, and the following well-formed request is never
answered, so responses are not one-to-one with non-blank lines. -/
theorem c5_counterexample_fewer_responses_than_lines :
    runLoop demoEngine demoChecker arrayLineStream ⟨demoGlobals, none⟩ = ([], true) ∧
    (arrayLineStream.filter nonBlank).length = 2 :=
  ⟨by rfl, by rfl⟩

/-- C3 counterexample: resetting Session Key `("a", "b_c")` deletes the
cached entry `a_b_c_inst`, yet that key also matches the derived prefix
of the distinct Session Key `("a_b", "c")` — so an entry belonging (by
the derived-prefix criterion the reset itself uses) to another Session
Key is removed. -/
theorem c3_counterexample_prefix_collision :
    (_handle_reset [("model_name", .str "a"), ("test_entry_id", .str "b_c")]
        ([("a_b_c_inst", 0)] : Globals Nat)).2 = [] ∧
    pyStartswith "a_b_c_inst" (keyPref (.str "a_b") (.str "c")) = true ∧
    (("a_b", "c") : String × String) ≠ (("a", "b_c") : String × String) :=
  ⟨rfl, rfl, by decide⟩

/-- C4 counterexample: the keyword-argument list `_handle_execute` hands
to the engine binds the second flag under the name `is_evaL_run`
(capital L, as the source spells it), and no keyword named
`is_eval_run` is passed at all. -/
theorem c4_counterexample_engine_keyword_name :
    (executeKwargs []).map Prod.fst =
      ["func_call_list", "initial_config", "involved_classes", "model_name",
       "test_entry_id", "long_context", "is_evaL_run"] ∧
    ((executeKwargs []).map Prod.fst).contains "is_eval_run" = false ∧
    "is_evaL_run" ≠ "is_eval_run" :=
  ⟨rfl, rfl, by decide⟩

/-- C7 counterexample: a request whose `action` is the JSON array `[]`
names no handler, but the response's error text is the `TypeError`
message raised by the unhashable dict lookup, not
`unknown action: []`. -/
theorem c7_counterexample_unhashable_action :
    (dispatchObj demoEngine demoChecker [("action", .arr []), ("id", .num 1)]
        ([] : Globals Nat)).1
      = [("id", .num 1), ("error", .str ("unhashable type: " ++ sq ++ "list" ++ sq))] ∧
    ("unhashable type: " ++ sq ++ "list" ++ sq) ≠ ("unknown action: " ++ pyStr (.arr [])) :=
  ⟨rfl, by decide⟩

/-- C6: reset is idempotent and total over well-formed requests: it
always reports `reset: true`; running it twice leaves the same cached
state as running it once; when `model_name` or `test_entry_id` is
absent it deletes nothing; and when no cached key matches the derived
prefix it deletes nothing. -/
theorem c6_reset_idempotent_total {α : Type} (payload : PyDict) (g : Globals α) :
    (_handle_reset payload g).1 = .ok [("reset", .bool true)] ∧
    (_handle_reset payload (_handle_reset payload g).2).2 = (_handle_reset payload g).2 ∧
    (lookupField payload "model_name" = none → (_handle_reset payload g).2 = g) ∧
    (lookupField payload "test_entry_id" = none → (_handle_reset payload g).2 = g) ∧
    ((∀ kv ∈ g, pyStartswith kv.1
        (keyPref (pyDictGetD payload "model_name" .null)
          (pyDictGetD payload "test_entry_id" .null)) = false) →
      (_handle_reset payload g).2 = g) := by
  refine ⟨rfl, ?_, ?_, ?_, ?_⟩
  · by_cases h : (pyTruthy (pyDictGetD payload "model_name" .null)
        && pyTruthy (pyDictGetD payload "test_entry_id" .null)) = true
    · simp only [_handle_reset, h, if_true, List.filter_filter, Bool.and_self]
    · simp only [_handle_reset, if_neg h]
  · intro h
    simp [_handle_reset, pyDictGetD, h, pyTruthy]
  · intro h
    simp [_handle_reset, pyDictGetD, h, pyTruthy]
  · intro h
    by_cases hc : (pyTruthy (pyDictGetD payload "model_name" .null)
        && pyTruthy (pyDictGetD payload "test_entry_id" .null)) = true
    · simp only [_handle_reset, hc, if_true]
      rw [List.filter_eq_self]
      intro kv hkv
      simp [h kv hkv]
    · simp only [_handle_reset, if_neg hc]

/-- C6 witness: a reset with no `model_name` field reports success and
deletes nothing, and resetting twice equals resetting once. -/
theorem c6_reset_idempotent_total_witness :
    (_handle_reset ([] : PyDict) ([("a_b_c", 0)] : Globals Nat)).1
      = .ok [("reset", .bool true)] ∧
    (_handle_reset ([] : PyDict) ([("a_b_c", 0)] : Globals Nat)).2 = [("a_b_c", 0)] ∧
    (_handle_reset ([] : PyDict)
        (_handle_reset ([] : PyDict) ([("a_b_c", 0)] : Globals Nat)).2).2
      = (_handle_reset ([] : PyDict) ([("a_b_c", 0)] : Globals Nat)).2 := by
  obtain ⟨h1, h2, h3, h4, h5⟩ :=
    c6_reset_idempotent_total ([] : PyDict) ([("a_b_c", 0)] : Globals Nat)
  exact ⟨h1, h3 rfl, h2⟩

/-- C3 (amended): for a reset request whose `model_name` and
`test_entry_id` are present and non-empty strings, reset removes
exactly the cached entries whose key starts with the derived prefix
`model_name ++ "_" ++ test_entry_id ++ "_"`: an entry survives iff it
was cached and its key lacks that prefix. (The claim's "no entry
belonging to any other Session Key is removed" fails: distinct Session
Keys can derive colliding prefixes and then share entries.) -/
theorem c3_reset_removes_exactly_prefix_matches {α : Type} (payload : PyDict)
    (g : Globals α) (m t : String)
    (hm : lookupField payload "model_name" = some (.str m))
    (ht : lookupField payload "test_entry_id" = some (.str t))
    (hm0 : m ≠ "") (ht0 : t ≠ "") :
    (_handle_reset payload g).1 = .ok [("reset", .bool true)] ∧
    ∀ kv, kv ∈ (_handle_reset payload g).2 ↔
      kv ∈ g ∧ pyStartswith kv.1 (m ++ "_" ++ t ++ "_") = false := by
  have hgd1 : pyDictGetD payload "model_name" .null = .str m := by
    simp [pyDictGetD, hm]
  have hgd2 : pyDictGetD payload "test_entry_id" .null = .str t := by
    simp [pyDictGetD, ht]
  have hpre : keyPref (.str m) (.str t) = m ++ "_" ++ t ++ "_" := rfl
  have hie1 : m.isEmpty = false := by
    cases h : m.isEmpty
    · rfl
    · exact absurd ((String.isEmpty_iff m).mp h) hm0
  have hie2 : t.isEmpty = false := by
    cases h : t.isEmpty
    · rfl
    · exact absurd ((String.isEmpty_iff t).mp h) ht0
  have hcond : (pyTruthy (.str m) && pyTruthy (.str t)) = true := by
    simp [pyTruthy, hie1, hie2]
  refine ⟨rfl, fun kv => ?_⟩
  simp only [_handle_reset, hgd1, hgd2, hcond, if_true, hpre, List.mem_filter,
    Bool.not_eq_true']

/-- C3 witness: resetting Session Key `("mm", "tt")` removes the entry
`mm_tt_x` and keeps the unrelated entry `other`. -/
theorem c3_reset_removes_exactly_prefix_matches_witness :
    (_handle_reset [("model_name", .str "mm"), ("test_entry_id", .str "tt")]
        ([("mm_tt_x", 0), ("other", 1)] : Globals Nat)).1
      = .ok [("reset", .bool true)] ∧
    (("other", 1) : String × Nat) ∈
      (_handle_reset [("model_name", .str "mm"), ("test_entry_id", .str "tt")]
        ([("mm_tt_x", 0), ("other", 1)] : Globals Nat)).2 ∧
    (("mm_tt_x", 0) : String × Nat) ∉
      (_handle_reset [("model_name", .str "mm"), ("test_entry_id", .str "tt")]
        ([("mm_tt_x", 0), ("other", 1)] : Globals Nat)).2 := by
  obtain ⟨h1, h2⟩ := c3_reset_removes_exactly_prefix_matches
    [("model_name", .str "mm"), ("test_entry_id", .str "tt")]
    ([("mm_tt_x", 0), ("other", 1)] : Globals Nat) "mm" "tt" rfl rfl
    (by decide) (by decide)
  refine ⟨h1, (h2 _).2 ⟨by decide, by rfl⟩, fun hmem => ?_⟩
  have := ((h2 _).1 hmem).2
  simp [pyStartswith, keyPref, charsPref] at this

/-- C4 (amended): `_handle_execute` forwards `long_context` under the
engine keyword `long_context` and `is_eval_run` under the engine
keyword `is_evaL_run` (capital L, as the source spells it), coercing
each with Python `bool()` — so boolean payload values pass through
unchanged and absent flags default to false — and on engine success the
engine's results list is returned as the `results` field. -/
theorem c4_flags_forwarded {α : Type} (eng : Engine α) (payload : PyDict)
    (g : Globals α) :
    lookupField (executeKwargs payload) "long_context"
      = some (.bool (pyTruthy (pyDictGetD payload "long_context" (.bool false)))) ∧
    lookupField (executeKwargs payload) "is_evaL_run"
      = some (.bool (pyTruthy (pyDictGetD payload "is_eval_run" (.bool false)))) ∧
    (∀ b, lookupField payload "long_context" = some (.bool b) →
      lookupField (executeKwargs payload) "long_context" = some (.bool b)) ∧
    (∀ b, lookupField payload "is_eval_run" = some (.bool b) →
      lookupField (executeKwargs payload) "is_evaL_run" = some (.bool b)) ∧
    (lookupField payload "long_context" = none →
      lookupField (executeKwargs payload) "long_context" = some (.bool false)) ∧
    (lookupField payload "is_eval_run" = none →
      lookupField (executeKwargs payload) "is_evaL_run" = some (.bool false)) ∧
    (∀ results insts g2, eng (executeKwargs payload) g = (.ok (results, insts), g2) →
      _handle_execute eng payload g = (.ok [("results", results)], g2)) := by
  refine ⟨rfl, rfl, ?_, ?_, ?_, ?_, ?_⟩
  · intro b h
    have hv : pyDictGetD payload "long_context" (.bool false) = .bool b := by
      simp [pyDictGetD, h]
    calc lookupField (executeKwargs payload) "long_context"
        = some (.bool (pyTruthy (pyDictGetD payload "long_context" (.bool false)))) := rfl
      _ = some (.bool (pyTruthy (.bool b))) := by rw [hv]
      _ = some (.bool b) := rfl
  · intro b h
    have hv : pyDictGetD payload "is_eval_run" (.bool false) = .bool b := by
      simp [pyDictGetD, h]
    calc lookupField (executeKwargs payload) "is_evaL_run"
        = some (.bool (pyTruthy (pyDictGetD payload "is_eval_run" (.bool false)))) := rfl
      _ = some (.bool (pyTruthy (.bool b))) := by rw [hv]
      _ = some (.bool b) := rfl
  · intro h
    have hv : pyDictGetD payload "long_context" (.bool false) = .bool false := by
      simp [pyDictGetD, h]
    calc lookupField (executeKwargs payload) "long_context"
        = some (.bool (pyTruthy (pyDictGetD payload "long_context" (.bool false)))) := rfl
      _ = some (.bool (pyTruthy (.bool false))) := by rw [hv]
      _ = some (.bool false) := rfl
  · intro h
    have hv : pyDictGetD payload "is_eval_run" (.bool false) = .bool false := by
      simp [pyDictGetD, h]
    calc lookupField (executeKwargs payload) "is_evaL_run"
        = some (.bool (pyTruthy (pyDictGetD payload "is_eval_run" (.bool false)))) := rfl
      _ = some (.bool (pyTruthy (.bool false))) := by rw [hv]
      _ = some (.bool false) := rfl
  · intro results insts g2 h
    simp only [_handle_execute, h]

/-- C4 witness: with `long_context: true` in the payload, the engine
receives `long_context = true`, and the demo engine's empty results
list comes back wrapped as the `results` field. -/
theorem c4_flags_forwarded_witness :
    lookupField (executeKwargs [("long_context", .bool true)]) "long_context"
      = some (.bool true) ∧
    lookupField (executeKwargs [("long_context", .bool true)]) "is_evaL_run"
      = some (.bool false) ∧
    _handle_execute demoEngine [("long_context", .bool true)] ([] : Globals Nat)
      = (.ok [("results", .arr [])], []) := by
  obtain ⟨h1, h2, h3, h4, h5, h6, h7⟩ :=
    c4_flags_forwarded demoEngine [("long_context", .bool true)] ([] : Globals Nat)
  exact ⟨h3 true rfl, h6 rfl, h7 (.arr []) (.arr []) [] rfl⟩

/-- C7 (amended): for a parsed request whose `action` is hashable (not
an array or object) and names none of the three handlers, the runner
responds with the echoed `id` (null when absent) and the error
`unknown action: <str(action)>`, leaves the globals untouched, and
invokes no handler (the outcome does not depend on the collaborators);
an array- or object-valued action instead yields the `TypeError`
message of the unhashable dict lookup. -/
theorem c7_unknown_action_response {α : Type} (eng eng2 : Engine α)
    (chk chk2 : Checker) (fields : PyDict) (g : Globals α)
    (hact : handlersGet ((lookupField fields "action").getD .null) = .ok none) :
    (dispatchObj eng chk fields g).1
      = [("error", .str ("unknown action: "
            ++ pyStr ((lookupField fields "action").getD .null))),
         ("id", (lookupField fields "id").getD .null)] ∧
    lookupField (dispatchObj eng chk fields g).1 "id"
      = some ((lookupField fields "id").getD .null) ∧
    lookupField (dispatchObj eng chk fields g).1 "error"
      = some (.str ("unknown action: "
          ++ pyStr ((lookupField fields "action").getD .null))) ∧
    (dispatchObj eng chk fields g).2 = g ∧
    dispatchObj eng chk fields g = dispatchObj eng2 chk2 fields g := by
  have key : ∀ (e : Engine α) (c : Checker), dispatchObj e c fields g
      = ([("error", .str ("unknown action: "
            ++ pyStr ((lookupField fields "action").getD .null))),
          ("id", (lookupField fields "id").getD .null)], g) := by
    intro e c
    simp only [dispatchObj]
    rw [hact]
    rfl
  refine ⟨?_, ?_, ?_, ?_, ?_⟩
  · rw [key]
  · rw [key]
    rfl
  · rw [key]
    rfl
  · rw [key]
  · rw [key, key]

/-- C7 witness: the unknown action `"frobnicate"` with id 2 yields the
`unknown action` error, the echoed id, and untouched globals. -/
theorem c7_unknown_action_response_witness :
    (dispatchObj demoEngine demoChecker
        [("action", .str "frobnicate"), ("id", .num 2)] ([("k", 0)] : Globals Nat)).1
      = [("error", .str "unknown action: frobnicate"), ("id", .num 2)] ∧
    (dispatchObj demoEngine demoChecker
        [("action", .str "frobnicate"), ("id", .num 2)] ([("k", 0)] : Globals Nat)).2
      = [("k", 0)] := by
  obtain ⟨h1, h2, h3, h4, h5⟩ := c7_unknown_action_response demoEngine demoEngine
    demoChecker demoChecker [("action", .str "frobnicate"), ("id", .num 2)]
    ([("k", 0)] : Globals Nat) rfl
  exact ⟨h1, h4⟩

/-- C8: the check operation leaves the cached globals unchanged, returns
the checker's verdict unmodified as the `result` field, and its response
depends only on the request's payload fields (two payloads with equal
check arguments produce the same response, whatever the globals). -/
theorem c8_check_stateless_verdict_unmodified {α : Type} (chk : Checker)
    (payload : PyDict) (g : Globals α) :
    (_handle_check chk payload g).2 = g ∧
    (∀ v, chk (pyDictGetD payload "model_results" (.arr []))
        (pyDictGetD payload "ground_truth" (.arr []))
        (pyDictGetD payload "test_entry" (.obj []))
        (pyDictGetD payload "test_category" (.str ""))
        (pyDictGetD payload "model_name" (.str "model")) = .ok v →
      (_handle_check chk payload g).1 = .ok [("result", v)]) ∧
    (∀ (q : PyDict) (g2 : Globals α), checkArgs q = checkArgs payload →
      (_handle_check chk q g2).1 = (_handle_check chk payload g).1) := by
  refine ⟨?_, ?_, ?_⟩
  · unfold _handle_check
    cases chk (pyDictGetD payload "model_results" (.arr []))
        (pyDictGetD payload "ground_truth" (.arr []))
        (pyDictGetD payload "test_entry" (.obj []))
        (pyDictGetD payload "test_category" (.str ""))
        (pyDictGetD payload "model_name" (.str "model")) <;> rfl
  · intro v hv
    unfold _handle_check
    rw [hv]
  · intro q g2 hq
    have h1 := congrArg (fun x => x.1) hq
    have h2 := congrArg (fun x => x.2.1) hq
    have h3 := congrArg (fun x => x.2.2.1) hq
    have h4 := congrArg (fun x => x.2.2.2.1) hq
    have h5 := congrArg (fun x => x.2.2.2.2) hq
    simp only [checkArgs] at h1 h2 h3 h4 h5
    unfold _handle_check
    rw [h1, h2, h3, h4, h5]
    cases chk (pyDictGetD payload "model_results" (.arr []))
        (pyDictGetD payload "ground_truth" (.arr []))
        (pyDictGetD payload "test_entry" (.obj []))
        (pyDictGetD payload "test_category" (.str ""))
        (pyDictGetD payload "model_name" (.str "model")) <;> rfl

/-- C8 witness: with the demo checker, a check request's verdict is
wrapped unmodified and the cached globals stay as they were. -/
theorem c8_check_stateless_verdict_unmodified_witness :
    (_handle_check demoChecker [("model_name", .str "m")]
        ([("a", 0)] : Globals Nat)).2 = [("a", 0)] ∧
    (_handle_check demoChecker [("model_name", .str "m")]
        ([("a", 0)] : Globals Nat)).1 = .ok [("result", .obj [])] := by
  obtain ⟨h1, h2, h3⟩ := c8_check_stateless_verdict_unmodified demoChecker
    [("model_name", .str "m")] ([("a", 0)] : Globals Nat)
  exact ⟨h1, h2 (.obj []) rfl⟩

/-- C10: absent payload fields are substituted by fixed defaults — empty
list for `func_call_list`, `involved_classes`, `model_results` and
`ground_truth`, empty dict for `initial_config` and `test_entry`,
`"model"` for `model_name`, empty string for `test_entry_id` and
`test_category` — and the handler proceeds to call the collaborator
with those defaults, so absence alone never produces an error. -/
theorem c10_absent_fields_get_defaults {α : Type} (eng : Engine α) (chk : Checker)
    (payload : PyDict) (g : Globals α) :
    (lookupField payload "func_call_list" = none →
      lookupField (executeKwargs payload) "func_call_list" = some (.arr [])) ∧
    (lookupField payload "initial_config" = none →
      lookupField (executeKwargs payload) "initial_config" = some (.obj [])) ∧
    (lookupField payload "involved_classes" = none →
      lookupField (executeKwargs payload) "involved_classes" = some (.arr [])) ∧
    (lookupField payload "model_name" = none →
      lookupField (executeKwargs payload) "model_name" = some (.str "model")) ∧
    (lookupField payload "test_entry_id" = none →
      lookupField (executeKwargs payload) "test_entry_id" = some (.str "")) ∧
    (lookupField payload "model_results" = none → (checkArgs payload).1 = .arr []) ∧
    (lookupField payload "ground_truth" = none → (checkArgs payload).2.1 = .arr []) ∧
    (lookupField payload "test_entry" = none → (checkArgs payload).2.2.1 = .obj []) ∧
    (lookupField payload "test_category" = none →
      (checkArgs payload).2.2.2.1 = .str "") ∧
    (lookupField payload "model_name" = none →
      (checkArgs payload).2.2.2.2 = .str "model") ∧
    (∀ results insts g2,
      eng (executeKwargs []) g = (.ok (results, insts), g2) →
      _handle_execute eng [] g = (.ok [("results", results)], g2)) ∧
    (∀ v, chk (.arr []) (.arr []) (.obj []) (.str "") (.str "model") = .ok v →
      _handle_check chk [] g = (.ok [("result", v)], g)) := by
  refine ⟨?_, ?_, ?_, ?_, ?_, ?_, ?_, ?_, ?_, ?_, ?_, ?_⟩
  · intro h
    have hv : pyDictGetD payload "func_call_list" (.arr []) = .arr [] := by
      simp [pyDictGetD, h]
    calc lookupField (executeKwargs payload) "func_call_list"
        = some (pyDictGetD payload "func_call_list" (.arr [])) := rfl
      _ = some (.arr []) := by rw [hv]
  · intro h
    have hv : pyDictGetD payload "initial_config" (.obj []) = .obj [] := by
      simp [pyDictGetD, h]
    calc lookupField (executeKwargs payload) "initial_config"
        = some (pyDictGetD payload "initial_config" (.obj [])) := rfl
      _ = some (.obj []) := by rw [hv]
  · intro h
    have hv : pyDictGetD payload "involved_classes" (.arr []) = .arr [] := by
      simp [pyDictGetD, h]
    calc lookupField (executeKwargs payload) "involved_classes"
        = some (pyDictGetD payload "involved_classes" (.arr [])) := rfl
      _ = some (.arr []) := by rw [hv]
  · intro h
    have hv : pyDictGetD payload "model_name" (.str "model") = .str "model" := by
      simp [pyDictGetD, h]
    calc lookupField (executeKwargs payload) "model_name"
        = some (pyDictGetD payload "model_name" (.str "model")) := rfl
      _ = some (.str "model") := by rw [hv]
  · intro h
    have hv : pyDictGetD payload "test_entry_id" (.str "") = .str "" := by
      simp [pyDictGetD, h]
    calc lookupField (executeKwargs payload) "test_entry_id"
        = some (pyDictGetD payload "test_entry_id" (.str "")) := rfl
      _ = some (.str "") := by rw [hv]
  · intro h
    simp [checkArgs, pyDictGetD, h]
  · intro h
    simp [checkArgs, pyDictGetD, h]
  · intro h
    simp [checkArgs, pyDictGetD, h]
  · intro h
    simp [checkArgs, pyDictGetD, h]
  · intro h
    simp [checkArgs, pyDictGetD, h]
  · intro results insts g2 h
    simp only [_handle_execute, h]
  · intro v hv
    unfold _handle_check
    have : pyDictGetD ([] : PyDict) "model_results" (.arr []) = .arr [] := rfl
    rw [show (pyDictGetD ([] : PyDict) "model_results" (.arr [])) = .arr [] from rfl,
      show (pyDictGetD ([] : PyDict) "ground_truth" (.arr [])) = .arr [] from rfl,
      show (pyDictGetD ([] : PyDict) "test_entry" (.obj [])) = .obj [] from rfl,
      show (pyDictGetD ([] : PyDict) "test_category" (.str "")) = .str "" from rfl,
      show (pyDictGetD ([] : PyDict) "model_name" (.str "model")) = .str "model" from rfl,
      hv]

/-- C5 (amended): for every finite input stream in which every line that
parses at all parses to a JSON object, the runner emits exactly one
response per non-blank input line, strictly in input order — the run
equals the state-threaded map of the single-line responder over the
non-blank lines, so the i-th response answers the i-th non-blank
request — blank or whitespace-only lines produce no response, and the
loop never crashes; the loop's persistent `payload` local, when already
set, must likewise hold an object. -/
theorem c5_one_response_per_nonblank_line {α : Type} (eng : Engine α)
    (chk : Checker) (lines : List InputLine) (st : LoopState α)
    (hls : ∀ l ∈ lines, ∀ v, l.parsed = .ok v → isDict v = true)
    (hst : ∀ v, st.lastPayload = some v → isDict v = true) :
    runLoop eng chk lines st
      = (seqMap (oneResp eng chk) st (lines.filter nonBlank), false) := by
  induction lines generalizing st hst with
  | nil => rfl
  | cons l ls ih =>
    have hls2 : ∀ x ∈ ls, ∀ v, x.parsed = .ok v → isDict v = true :=
      fun x hx => hls x (List.mem_cons_of_mem _ hx)
    by_cases hb : pyStrip l.text = ""
    · have hnb : nonBlank l = false := by simp [nonBlank, hb]
      have hstep : stepLine eng chk st l = .skip st := by
        simp [stepLine, hb]
      calc runLoop eng chk (l :: ls) st
          = runLoop eng chk ls st := by
            simp only [runLoop, hstep]
        _ = (seqMap (oneResp eng chk) st (ls.filter nonBlank), false) :=
            ih st hls2 hst
        _ = (seqMap (oneResp eng chk) st ((l :: ls).filter nonBlank), false) := by
            simp [List.filter_cons, hnb]
    · have hnb : nonBlank l = true := by simp [nonBlank, hb]
      obtain ⟨r, st2, hstep, hst2⟩ : ∃ r st2,
          stepLine eng chk st l = .emit r st2 ∧
          ∀ v, st2.lastPayload = some v → isDict v = true := by
        cases hp : l.parsed with
        | error msg =>
          cases hlp : st.lastPayload with
          | none =>
            refine ⟨[("id", .null), ("error", .str msg)], st, ?_, hst⟩
            simp [stepLine, hb, hp, respMalformed, hlp]
          | some p =>
            have hd := hst p hlp
            cases p with
            | null => simp [isDict] at hd
            | bool b => simp [isDict] at hd
            | num n => simp [isDict] at hd
            | str s => simp [isDict] at hd
            | arr xs => simp [isDict] at hd
            | obj fs =>
              refine ⟨[("id", (lookupField fs "id").getD .null), ("error", .str msg)],
                st, ?_, hst⟩
              simp [stepLine, hb, hp, respMalformed, hlp, pyGetAttrGet]
        | ok v =>
          have hd := hls l (List.mem_cons_self l ls) v hp
          cases v with
          | null => simp [isDict] at hd
          | bool b => simp [isDict] at hd
          | num n => simp [isDict] at hd
          | str s => simp [isDict] at hd
          | arr xs => simp [isDict] at hd
          | obj fields =>
            refine ⟨(dispatchObj eng chk fields st.globals).1,
              ⟨(dispatchObj eng chk fields st.globals).2, some (.obj fields)⟩, ?_, ?_⟩
            · simp [stepLine, hb, hp]
            · intro v hv
              cases hv
              rfl
      have hone : oneResp eng chk st l = (r, st2) := by
        simp [oneResp, hstep]
      calc runLoop eng chk (l :: ls) st
          = (r :: (runLoop eng chk ls st2).1, (runLoop eng chk ls st2).2) := by
            simp only [runLoop, hstep]
        _ = (seqMap (oneResp eng chk) st ((l :: ls).filter nonBlank), false) := by
            rw [ih st2 hls2 hst2]
            simp [List.filter_cons, hnb, seqMap, hone]

/-- C5 witness: a concrete three-line stream — a request with id 1, a
blank line, and a malformed line — yields exactly one response per
non-blank line, in order, with no crash. -/
theorem c5_one_response_per_nonblank_line_witness :
    runLoop demoEngine demoChecker
      [ ⟨"\x7b\"id\": 1, \"action\": \"reset\"\x7d",
          .ok (.obj [("id", .num 1), ("action", .str "reset")])⟩,
        ⟨"   ", .error "Expecting value: line 1 column 1 (char 0)"⟩,
        ⟨"\x7boops", .error "Expecting value: line 1 column 1 (char 0)"⟩ ]
      ⟨demoGlobals, none⟩
      = (seqMap (oneResp demoEngine demoChecker) ⟨demoGlobals, none⟩
          (List.filter nonBlank
            [ ⟨"\x7b\"id\": 1, \"action\": \"reset\"\x7d",
                .ok (.obj [("id", .num 1), ("action", .str "reset")])⟩,
              ⟨"   ", .error "Expecting value: line 1 column 1 (char 0)"⟩,
              ⟨"\x7boops", .error "Expecting value: line 1 column 1 (char 0)"⟩ ]),
         false) := by
  apply c5_one_response_per_nonblank_line
  · intro l hl v hv
    fin_cases hl
    · cases hv
      rfl
    · simp at hv
    · simp at hv
  · intro v hv
    cases hv

/-- C10 witness: on the empty payload the execute handler receives every
default and succeeds with the demo engine, and the check handler
receives every default and succeeds with the demo checker. -/
theorem c10_absent_fields_get_defaults_witness :
    lookupField (executeKwargs []) "func_call_list" = some (.arr []) ∧
    lookupField (executeKwargs []) "model_name" = some (.str "model") ∧
    _handle_execute demoEngine [] ([] : Globals Nat)
      = (.ok [("results", .arr [])], []) ∧
    _handle_check demoChecker [] ([] : Globals Nat)
      = (.ok [("result", .obj [])], []) := by
  obtain ⟨h1, h2, h3, h4, h5, h6, h7, h8, h9, h10, h11, h12⟩ :=
    c10_absent_fields_get_defaults demoEngine demoChecker ([] : PyDict)
      ([] : Globals Nat)
  exact ⟨h1 rfl, h4 rfl, h11 (.arr []) (.arr []) [] rfl, h12 (.obj []) rfl⟩

end BfclRunner
